import Mathlib

/-!
Verification of the subscription cost-aggregation core of the
EffectiveMobile subscription tracker.

All subscription dates in the program are `time.Time` values truncated to
the first day of a calendar month in UTC ("MonthValue").  The set of such
instants is order-isomorphic to the integers via the month index
`year * 12 + (month - 1)`, and every operation the program performs on them
(`Before`, `After`, `Equal`, `AddDate(0,1,0)`, truncation) corresponds to
`<`, `>`, `=`, `+1` and the identity on that index.  The embedding therefore
represents a MonthValue as an `Int`.
-/

/-- Month index of year `y`, month `m` (`m` counted `1..12`):
the representation of `time.Date(y, m, 1, 0, 0, 0, 0, time.UTC)`. -/
def monthIdx (y m : Int) : Int := y * 12 + (m - 1)

/-- Embeds `StatsService.monthsBetween` (internal/service/stats.go): truncates both
arguments to the first of their month — the identity on `Month` values —
then counts `months` by the loop `for start.Before(end) || start.Equal(end)
{ start = start.AddDate(0, 1, 0); months++ }`. -/
def monthsBetween (start finish : Int) : Nat :=
  if _h : start ≤ finish then monthsBetween (start + 1) finish + 1 else 0
termination_by (finish + 1 - start).toNat
decreasing_by omega

/-! Cost aggregation (internal/service/stats.go). -/

/-- A row of `repository.SubscriptionCost` as consumed by
`StatsService.calculateTotalCost`: price in minor units, start month, and an
optional end month (`nil` = open-ended). -/
structure SubscriptionCost where
  id : Int
  startDate : Int
  endDate : Option Int
  priceRub : Int
  userId : Nat
  serviceName : String
deriving Repr, DecidableEq

/-- Embeds `StatsService.calculateIntersectionMonths`.  Here `now` is the month index of
the wall-clock instant `time.Now()` (the code truncates the instant to its
month before using it, either inside `monthsBetween` or via
`time.Date(now.Year(), now.Month(), 1, ...)`, so only the month matters). -/
def calculateIntersectionMonths (now : Int) (subscriptionStart : Int)
    (subscriptionEnd periodStart periodEnd : Option Int) : Nat :=
  if periodStart = none ∧ periodEnd = none then
    match subscriptionEnd with
    | none => monthsBetween subscriptionStart now
    | some se => monthsBetween subscriptionStart se
  else
    let intersectionStart :=
      match periodStart with
      | none => subscriptionStart
      | some ps => if subscriptionStart > ps then subscriptionStart else ps
    let intersectionEnd :=
      match subscriptionEnd with
      | none =>
        match periodEnd with
        | none => now
        | some pe => pe
      | some se =>
        match periodEnd with
        | none => se
        | some pe => if se < pe then se else pe
    if intersectionStart > intersectionEnd then 0
    else monthsBetween intersectionStart intersectionEnd

/-- Embeds `StatsService.calculateTotalCost`: sums `sub.PriceRub * months` over the
candidate subscriptions. -/
def calculateTotalCost (now : Int) (subscriptions : List SubscriptionCost)
    (periodStart periodEnd : Option Int) : Int :=
  (subscriptions.map (fun sub =>
    sub.priceRub *
      (calculateIntersectionMonths now sub.startDate sub.endDate periodStart periodEnd : Int))).sum

/-- The Step-2 intersection rule exactly as the specification words it:
`intersectionStart = max(start_date, periodStart)` (or `start_date` alone),
`intersectionEnd = min(end_date, periodEnd)` for a dated subscription and
`periodEnd` (or the first of the current month) for an open-ended one; an
empty intersection contributes 0, otherwise `monthsBetween` of the bounds. -/
def specStep2Months (now : Int) (startDate : Int)
    (endDate periodStart periodEnd : Option Int) : Nat :=
  let intersectionStart :=
    match periodStart with
    | none => startDate
    | some ps => max startDate ps
  let intersectionEnd :=
    match endDate with
    | none => periodEnd.getD now
    | some se =>
      match periodEnd with
      | none => se
      | some pe => min se pe
  if intersectionEnd < intersectionStart then 0
  else monthsBetween intersectionStart intersectionEnd

/-! Candidate selection (internal/repository/stats.go, `StatsRepository.GetTotalCost`). -/

/-- Embeds `repository.GetTotalCostParams`: the optional filters of an aggregation
query.  The UUID is abstracted to a `Nat`. -/
structure GetTotalCostParams where
  userID : Option Nat
  serviceName : Option String
  startDate : Option Int
  endDate : Option Int
deriving Repr, DecidableEq

/-- Embeds `repository.TotalCostStats`. -/
structure TotalCostStats where
  totalCost : Int
  subscriptions : List SubscriptionCost
  startDate : Option Int
  endDate : Option Int
  userID : Option Nat
  serviceName : Option String
  subscriptionsCount : Nat
deriving Repr, DecidableEq

/-- The `WHERE` conditions added for `p.UserID` and `p.ServiceName`
(equality filters over the joined `subscription × service` view). -/
def statsUserServiceCond (p : GetTotalCostParams) (r : SubscriptionCost) : Bool :=
  (match p.userID with
   | none => true
   | some u => r.userId = u) &&
  (match p.serviceName with
   | none => true
   | some n => r.serviceName = n)

/-- The period conditions as `StatsRepository.GetTotalCost` builds them: one
of four shapes depending on which of `p.StartDate`/`p.EndDate` is nil,
mirroring the `if / else if / else if` chain of the code.  SQL
`end_date IS NULL OR end_date >= $start` becomes the inner match. -/
def statsPeriodCond (p : GetTotalCostParams) (r : SubscriptionCost) : Bool :=
  match p.startDate, p.endDate with
  | some ps, some pe =>
    decide (r.startDate ≤ pe) &&
      (match r.endDate with
       | none => true
       | some e => decide (ps ≤ e))
  | some ps, none =>
    (match r.endDate with
     | none => true
     | some e => decide (ps ≤ e))
  | none, some pe => decide (r.startDate ≤ pe)
  | none, none => true

/-- Embeds `StatsRepository.GetTotalCost`: the SQL query reads every row of the
joined view passing the filters, and its `SubscriptionsCount` is
`len(subscriptions)`; `TotalCost` is left at its zero value. -/
def statsRepoGetTotalCost (db : List SubscriptionCost) (p : GetTotalCostParams) :
    TotalCostStats :=
  let subscriptions := db.filter (fun r => statsUserServiceCond p r && statsPeriodCond p r)
  { totalCost := 0
    subscriptions := subscriptions
    startDate := p.startDate
    endDate := p.endDate
    userID := p.userID
    serviceName := p.serviceName
    subscriptionsCount := subscriptions.length }

/-- Embeds `StatsService.GetTotalCost`: fetches the candidates from the repository
and overwrites `TotalCost` with `calculateTotalCost` over them. -/
def statsServiceGetTotalCost (now : Int) (db : List SubscriptionCost)
    (p : GetTotalCostParams) : TotalCostStats :=
  let stats := statsRepoGetTotalCost db p
  { stats with totalCost := calculateTotalCost now stats.subscriptions p.startDate p.endDate }

/-- The overlap test exactly as the specification words it: the
userID/serviceName filters, `start_date ≤ periodEnd` when `periodEnd` is
given, and `end_date IS NULL OR end_date ≥ periodStart` when `periodStart`
is given. -/
def specOverlapTest (p : GetTotalCostParams) (r : SubscriptionCost) : Bool :=
  (match p.userID with
   | none => true
   | some u => r.userId = u) &&
  (match p.serviceName with
   | none => true
   | some n => r.serviceName = n) &&
  (match p.endDate with
   | none => true
   | some pe => decide (r.startDate ≤ pe)) &&
  (match p.startDate with
   | none => true
   | some ps =>
     match r.endDate with
     | none => true
     | some e => decide (ps ≤ e))

/-! Month parsing and formatting (ParseMonth / FormatDate, internal/service). -/

/-- Character code helper: value of an ASCII digit. -/
def digitVal (c : Char) : Nat := c.toNat - 48

/-- Embeds `ParseMonth` = Go `time.Parse("01-2006", s)` followed by
`time.Date(t.Year(), t.Month(), 1, 0, 0, 0, 0, time.UTC)`.  With the fixed
layout `01-2006`, Go's parser consumes exactly two ASCII digits (zero-padded
month), the literal dash, and exactly four ASCII digits (year), rejects any
remaining text, and range-checks the month into `1..12`; the result carries
the first day of the month, UTC, zero time-of-day, which the embedding
represents by the month index. -/
def parseMonth (s : String) : Option Int :=
  match s.data with
  | [m1, m2, dash, y1, y2, y3, y4] =>
    if m1.isDigit && m2.isDigit && dash = '-' &&
        y1.isDigit && y2.isDigit && y3.isDigit && y4.isDigit then
      let mm := 10 * digitVal m1 + digitVal m2
      let yy := 1000 * digitVal y1 + 100 * digitVal y2 + 10 * digitVal y3 + digitVal y4
      if 1 ≤ mm ∧ mm ≤ 12 then some (monthIdx yy mm) else none
    else none
  | _ => none

/-- Embeds `FormatDate` (internal/service/stats.go, second revision):
`""` for a nil date, else Go `date.Format("01-2006")` — the month zero-padded
to two digits and the year zero-padded to four (years above 9999, which no
`parseMonth` output reaches, print with their full decimal digits just as
Go's `appendInt` does). -/
def formatDate (date : Option Int) : String :=
  match date with
  | none => ""
  | some m =>
    let n := m.toNat
    let mm := n % 12 + 1
    let yy := n / 12
    let yearChars :=
      if yy < 10000 then
        [Char.ofNat (48 + yy / 1000), Char.ofNat (48 + yy / 100 % 10),
         Char.ofNat (48 + yy / 10 % 10), Char.ofNat (48 + yy % 10)]
      else (Nat.repr yy).data
    String.mk ([Char.ofNat (48 + mm / 10), Char.ofNat (48 + mm % 10), '-'] ++ yearChars)

/-- Specification predicate: `s` matches the `MM-YYYY` pattern — two ASCII
digits forming a month `01..12`, a dash, and a four-digit year. -/
def isMMYYYY (s : String) : Prop :=
  ∃ m1 m2 y1 y2 y3 y4 : Char,
    s.data = [m1, m2, '-', y1, y2, y3, y4] ∧
    m1.isDigit ∧ m2.isDigit ∧ y1.isDigit ∧ y2.isDigit ∧ y3.isDigit ∧ y4.isDigit ∧
    1 ≤ 10 * digitVal m1 + digitVal m2 ∧ 10 * digitVal m1 + digitVal m2 ≤ 12

/-! Subscription lifecycle: update and create pipelines over a relational
store embedded as a list of rows, with the constraints of
migrations/2_subscription.up.sql. -/

/-- Domain and storage errors of the repository and service layers.
`validation` stands for wrapped `service.ErrValidation`; `storage` for any
other error surfaced from the persistence layer (for example a check
constraint violation wrapped as a generic execution failure). -/
inductive RepoError where
  | validation
  | subscriptionAlreadyExists
  | subscriptionNotFound
  | subscriptionNotCreated
  | serviceNotFound
  | serviceNameExists
  | emptyServiceName
  | serviceInUse
  | storage
deriving Repr, DecidableEq

/-- A row of the `subscription` table. -/
structure SubRecord where
  id : Int
  userId : Nat
  serviceId : Int
  priceRub : Int
  startDate : Int
  endDate : Option Int
deriving Repr, DecidableEq

/-- Row-level CHECK constraints of the `subscription` table:
`price_rub >= 0` and `end_date IS NULL OR end_date >= start_date` (the
month-truncation checks hold by representation). -/
def rowChecks (r : SubRecord) : Bool :=
  decide (0 ≤ r.priceRub) &&
  (match r.endDate with
   | none => true
   | some e => decide (r.startDate ≤ e))

/-- Key of the table's `UNIQUE (user_id, service_id, start_date)` index. -/
def tripleKey (r : SubRecord) : Nat × Int × Int := (r.userId, r.serviceId, r.startDate)

/-- Table-level invariant enforced by the store: every row passes its checks
and the unique index holds. -/
def storeOK (store : List SubRecord) : Bool :=
  store.all rowChecks && decide (store.map tripleKey).Nodup

/-- Go struct `repository.UpdateSubscriptionParams`: one optional value per
updatable column.  For `endDate`, `some e` is a non-nil `*time.Time` whose
dereferenced value is written to the column — there is no way for these
params to write SQL NULL. -/
structure UpdateSubscriptionParams where
  id : Int
  serviceID : Option Int
  priceRub : Option Int
  startDate : Option Int
  endDate : Option Int
deriving Repr, DecidableEq

/-- Column assignments of the repository `UPDATE`: a `SET` clause per non-nil
field (the cited revision sets `price_rub`, `start_date`, `end_date`; the
resolved service id travels the same way when present). -/
def applyUpdate (p : UpdateSubscriptionParams) (r : SubRecord) : SubRecord :=
  { r with
    serviceId := p.serviceID.getD r.serviceId
    priceRub := p.priceRub.getD r.priceRub
    startDate := p.startDate.getD r.startDate
    endDate :=
      match p.endDate with
      | none => r.endDate
      | some e => some e }

/-- Embeds `SubscriptionRepository.UpdateSubscription`: with no non-nil
field there is no `SET` clause and the query builder itself errs; otherwise
executes the `UPDATE` (the statement aborts with a generic wrapped error
when the new rows violate the table constraints, leaving the store
unchanged), then reports `ErrSubscriptionNotFound` when no row was
affected. -/
def repoUpdateSubscription (store : List SubRecord) (p : UpdateSubscriptionParams) :
    Except RepoError (List SubRecord) :=
  if p.serviceID = none ∧ p.priceRub = none ∧ p.startDate = none ∧ p.endDate = none then
    Except.error RepoError.storage
  else
    let newStore := store.map (fun r => if r.id = p.id then applyUpdate p r else r)
    if !storeOK newStore then Except.error RepoError.storage
    else if store.countP (fun r => decide (r.id = p.id)) = 0 then
      Except.error RepoError.subscriptionNotFound
    else Except.ok newStore

/-- Go zero `time.Time` (year 1, January 1, UTC) as a month index. -/
def goZeroTimeMonth : Int := monthIdx 1 1

/-- Embeds `SubscriptionService.UpdateSubscription` up to the repository call:
builds the update params field by field.  A non-nil `serviceName` is resolved
through `GetOrCreateServiceID` (abstracted as `resolve`); a non-nil
`startDate` is parsed (parse failure wraps `ErrValidation`); a non-nil
`endDate` equal to `""` or `"null"` stores the dereferenced zero
`time.Time`, any other value is parsed and — only when the same call also
supplied a new start date — compared against it. -/
def serviceUpdateSubscription (resolve : String → Except RepoError Int)
    (id : Int) (serviceName : Option String) (price : Option Int)
    (startDate endDate : Option String) :
    Except RepoError UpdateSubscriptionParams := do
  let base : UpdateSubscriptionParams :=
    { id := id, serviceID := none, priceRub := price, startDate := none, endDate := none }
  let withService ←
    match serviceName with
    | none => pure base
    | some name => do
        let sid ← resolve name
        pure { base with serviceID := some sid }
  let withStart ←
    match startDate with
    | none => pure withService
    | some sd =>
        match parseMonth sd with
        | none => Except.error RepoError.validation
        | some d => pure { withService with startDate := some d }
  let withEnd ←
    match endDate with
    | none => pure withStart
    | some ed =>
        if ed = "" ∨ ed = "null" then
          pure { withStart with endDate := some goZeroTimeMonth }
        else
          match parseMonth ed with
          | none => Except.error RepoError.validation
          | some d =>
            match withStart.startDate with
            | some sd =>
                if d < sd then Except.error RepoError.validation
                else pure { withStart with endDate := some d }
            | none => pure { withStart with endDate := some d }
  pure withEnd

/-- Full update pipeline: service validation and param building, then the
repository `UPDATE` against the store. -/
def updateSubscription (resolve : String → Except RepoError Int)
    (store : List SubRecord) (id : Int) (serviceName : Option String)
    (price : Option Int) (startDate endDate : Option String) :
    Except RepoError (List SubRecord) := do
  let p ← serviceUpdateSubscription resolve id serviceName price startDate endDate
  repoUpdateSubscription store p

/-- A stored subscription Jan-2024 .. Dec-2024 at price 500. -/
def c5Store : List SubRecord :=
  [{ id := 1, userId := 0, serviceId := 1, priceRub := 500,
     startDate := monthIdx 2024 1, endDate := some (monthIdx 2024 12) }]

/-- Resolver standing for a service registry that is never consulted in the
scenarios below (`serviceName` is always absent). -/
def noResolve : String → Except RepoError Int := fun _ => Except.error RepoError.storage

/-! Subscription creation (`SubscriptionRepository.CreateSubscription`) and
the service-name registry (`ServiceRepository`). -/

/-- Go struct `repository.CreateSubscriptionParams`. -/
structure CreateSubscriptionParams where
  userId : Nat
  serviceId : Int
  priceRub : Int
  startDate : Int
  endDate : Option Int
deriving Repr, DecidableEq

/-- Row inserted for the params, with the sequence-assigned id. -/
def rowOfCreate (id : Int) (p : CreateSubscriptionParams) : SubRecord :=
  { id := id, userId := p.userId, serviceId := p.serviceId,
    priceRub := p.priceRub, startDate := p.startDate, endDate := p.endDate }

/-- Next value of the `BIGSERIAL` id sequence, modelled as one past the
largest id in the table (always at least 1). -/
def nextId (store : List SubRecord) : Int :=
  (store.map SubRecord.id).foldr max 0 + 1

/-- CHECK constraints evaluated on the row the params would insert. -/
def createParamChecks (p : CreateSubscriptionParams) : Bool :=
  decide (0 ≤ p.priceRub) &&
  (match p.endDate with
   | none => true
   | some e => decide (p.startDate ≤ e))

/-- Embeds `SubscriptionRepository.CreateSubscription` (part_011, lines 282-338):
first a `SELECT id` pre-check matching `user_id`, `service_id`, `start_date`
and `end_date` (nil compares as `IS NULL`), answering
`ErrSubscriptionAlreadyExists` when a row is found; then the `INSERT ..
RETURNING id`.  The store evaluates the inserted row's CHECK constraints
before touching the unique index, so a check violation wins over a
duplicate triple; part_011 maps only a `UniqueViolation` to
`ErrSubscriptionAlreadyExists`, a `CheckViolation` passes through as a
generic error, and a returned id of 0 yields `ErrSubscriptionNotCreated`. -/
def repoCreateSubscription (store : List SubRecord) (p : CreateSubscriptionParams) :
    Except RepoError (Int × List SubRecord) :=
  if store.any (fun r => decide (r.userId = p.userId) && decide (r.serviceId = p.serviceId) &&
      decide (r.startDate = p.startDate) && decide (r.endDate = p.endDate)) then
    Except.error RepoError.subscriptionAlreadyExists
  else
    let id := nextId store
    let row := rowOfCreate id p
    if !rowChecks row then Except.error RepoError.storage
    else if store.any (fun r => decide (r.userId = p.userId) && decide (r.serviceId = p.serviceId) &&
        decide (r.startDate = p.startDate)) then
      Except.error RepoError.subscriptionAlreadyExists
    else if id = 0 then Except.error RepoError.subscriptionNotCreated
    else Except.ok (id, store ++ [row])

/-- A row of the `service` table: id and unique name. -/
abbrev ServiceRow : Type := Int × String

/-- Next value of the `service` id sequence. -/
def serviceNextId (tbl : List ServiceRow) : Int :=
  (tbl.map Prod.fst).foldr max 0 + 1

/-- Embeds `ServiceRepository.GetServiceID`: exact-name lookup;
`ErrServiceNotFound` when no row matches. -/
def getServiceID (tbl : List ServiceRow) (name : String) : Except RepoError Int :=
  match tbl.find? (fun e => e.2 = name) with
  | some e => Except.ok e.1
  | none => Except.error RepoError.serviceNotFound

/-- Embeds Go `strings.TrimSpace`: drops whitespace from both ends of the
name (structural on the character list so that concrete instances
evaluate). -/
def goTrimSpace (s : String) : String :=
  String.mk (((s.data.dropWhile Char.isWhitespace).reverse.dropWhile Char.isWhitespace).reverse)

/-- Embeds `ServiceRepository.AddService`: trims the name, rejects an empty result,
inserts; the `service.name` unique constraint maps a conflict to
`ErrServiceNameExists` — the existing id is not re-read. -/
def addService (tbl : List ServiceRow) (name : String) : Except RepoError Int :=
  let trimmed := goTrimSpace name
  if trimmed = "" then Except.error RepoError.emptyServiceName
  else if tbl.any (fun e => e.2 = trimmed) then Except.error RepoError.serviceNameExists
  else Except.ok (serviceNextId tbl)

/-- Embeds `ServiceRepository.GetOrCreateServiceID`: lookup, then insert on
`ErrServiceNotFound`.  The two persistence calls each run against their own
snapshot of the `service` table (`lookupTbl` at the `SELECT`, `insertTbl` at
the `INSERT`); a concurrent caller creating the same name in between appears
as a name present in `insertTbl` but not in `lookupTbl`. -/
def getOrCreateServiceID (lookupTbl insertTbl : List ServiceRow) (name : String) :
    Except RepoError Int :=
  match getServiceID lookupTbl name with
  | Except.ok id => Except.ok id
  | Except.error RepoError.serviceNotFound => addService insertTbl name
  | Except.error e => Except.error e

/-! Theorems: the ten claims and their supporting lemmas and witnesses. -/

theorem monthsBetween_of_le {s e : Int} (h : s ≤ e) :
    monthsBetween s e = monthsBetween (s + 1) e + 1 := by
  rw [monthsBetween]
  simp [h]

theorem monthsBetween_of_gt {s e : Int} (h : e < s) :
    monthsBetween s e = 0 := by
  rw [monthsBetween]
  simp [not_le.mpr h]

/-- Closed form for the loop: on `a ≤ b` it counts both endpoints inclusively. -/
theorem monthsBetween_closed (k : Nat) :
    ∀ s e : Int, e - s = k → monthsBetween s e = k + 1 := by
  induction k with
  | zero =>
    intro s e h
    have hs : s ≤ e := by omega
    have hgt : e < s + 1 := by omega
    rw [monthsBetween_of_le hs, monthsBetween_of_gt hgt]
  | succ n ih =>
    intro s e h
    have hs : s ≤ e := by omega
    rw [monthsBetween_of_le hs, ih (s + 1) e (by omega)]

/-- C3: for all month values `a ≤ b`, `monthsBetween a b` is the inclusive
count of calendar months from `a` to `b`, i.e. `b - a + 1`; in particular
`monthsBetween Jan-2024 Jan-2024 = 1` and `monthsBetween Jan-2024 Mar-2024 = 3`. -/
theorem monthsBetween_counts_inclusive (a b : Int) (h : a ≤ b) :
    monthsBetween a b = (b - a + 1).toNat ∧
    monthsBetween (monthIdx 2024 1) (monthIdx 2024 1) = 1 ∧
    monthsBetween (monthIdx 2024 1) (monthIdx 2024 3) = 3 := by
  refine ⟨?_, ?_, ?_⟩
  · have := monthsBetween_closed (b - a).toNat a b (by omega)
    omega
  · have := monthsBetween_closed 0 (monthIdx 2024 1) (monthIdx 2024 1) (by
      simp [monthIdx])
    omega
  · have := monthsBetween_closed 2 (monthIdx 2024 1) (monthIdx 2024 3) (by
      simp [monthIdx])
    omega

theorem monthsBetween_counts_inclusive_witness :
    monthIdx 2024 1 ≤ monthIdx 2024 3 ∧
    monthsBetween (monthIdx 2024 1) (monthIdx 2024 3) = (monthIdx 2024 3 - monthIdx 2024 1 + 1).toNat :=
  ⟨by simp [monthIdx],
   (monthsBetween_counts_inclusive (monthIdx 2024 1) (monthIdx 2024 3)
     (by simp [monthIdx])).1⟩

theorem goIfMax (a b : Int) : (if a > b then a else b) = max a b := by
  rcases le_or_lt a b with hle | hlt
  · simp [not_lt.mpr hle, max_eq_right hle]
  · simp [hlt, max_eq_left hlt.le]

theorem goIfMin (a b : Int) : (if a < b then a else b) = min a b := by
  rcases lt_or_le a b with hlt | hle
  · simp [hlt, min_eq_left hlt.le]
  · simp [not_lt.mpr hle, min_eq_right hle]

/-- The redundant guard: `monthsBetween` already returns 0 on an empty range. -/
theorem monthsBetween_guard (s e : Int) :
    monthsBetween s e = if e < s then 0 else monthsBetween s e := by
  rcases lt_or_le e s with hlt | hle
  · simp [hlt, monthsBetween_of_gt hlt]
  · simp [not_lt.mpr hle]

theorem calculateIntersectionMonths_eq_spec (now startDate : Int)
    (endDate periodStart periodEnd : Option Int) :
    calculateIntersectionMonths now startDate endDate periodStart periodEnd =
      specStep2Months now startDate endDate periodStart periodEnd := by
  rcases periodStart with _ | ps <;> rcases periodEnd with _ | pe <;>
    rcases endDate with _ | se <;>
    simp only [calculateIntersectionMonths, specStep2Months, Option.getD,
      goIfMax, goIfMin, and_self, if_true, if_false, reduceCtorEq,
      false_and, and_false, not_false_eq_true, if_neg, gt_iff_lt] <;>
    rw [← monthsBetween_guard]

theorem monthsBetween_2024_3_to_6 : monthsBetween (monthIdx 2024 3) (monthIdx 2024 6) = 4 := by
  have := monthsBetween_closed 3 (monthIdx 2024 3) (monthIdx 2024 6) (by simp [monthIdx])
  omega

theorem monthsBetween_2024_1_to_3 : monthsBetween (monthIdx 2024 1) (monthIdx 2024 3) = 3 := by
  have := monthsBetween_closed 2 (monthIdx 2024 1) (monthIdx 2024 3) (by simp [monthIdx])
  omega

theorem monthsBetween_2024_1_to_12 : monthsBetween (monthIdx 2024 1) (monthIdx 2024 12) = 12 := by
  have := monthsBetween_closed 11 (monthIdx 2024 1) (monthIdx 2024 12) (by simp [monthIdx])
  omega

/-- C1: `GetTotalCost` computes each candidate's contributed months by the
Step-2 intersection rule (`intersectionStart` the later of `start_date` and
`periodStart`, `intersectionEnd` the earlier of `end_date` and `periodEnd`
for a dated subscription and `periodEnd` itself — never the current month —
for an open-ended one when `periodEnd` is given, 0 months on an empty
intersection, else `monthsBetween`), and `totalCost` is the sum of
`price * months`; in particular the dated example yields 2000 and the
open-ended example 1500, for every wall-clock instant `now`. -/
theorem calculateTotalCost_step2_rule :
    (∀ (now : Int) (subs : List SubscriptionCost) (periodStart periodEnd : Option Int),
      calculateTotalCost now subs periodStart periodEnd =
        (subs.map (fun sub => sub.priceRub *
          (specStep2Months now sub.startDate sub.endDate periodStart periodEnd : Int))).sum) ∧
    (∀ now : Int, calculateTotalCost now
        [{ id := 1, userId := 0, serviceName := "Netflix", priceRub := 500, startDate := monthIdx 2024 1,
           endDate := some (monthIdx 2024 12) }]
        (some (monthIdx 2024 3)) (some (monthIdx 2024 6)) = 2000) ∧
    (∀ now : Int, calculateTotalCost now
        [{ id := 1, userId := 0, serviceName := "Netflix", priceRub := 500, startDate := monthIdx 2024 1, endDate := none }]
        (some (monthIdx 2024 1)) (some (monthIdx 2024 3)) = 1500) := by
  refine ⟨?_, ?_, ?_⟩
  · intro now subs periodStart periodEnd
    unfold calculateTotalCost
    congr 1
    apply List.map_congr_left
    intro sub _
    rw [calculateIntersectionMonths_eq_spec]
  · intro now
    simp only [calculateTotalCost, List.map_cons, List.map_nil, List.sum_cons,
      List.sum_nil, calculateIntersectionMonths]
    norm_num [monthIdx]
    have h := monthsBetween_2024_3_to_6
    norm_num [monthIdx] at h
    rw [h]
    norm_num
    simp
  · intro now
    simp only [calculateTotalCost, List.map_cons, List.map_nil, List.sum_cons,
      List.sum_nil, calculateIntersectionMonths]
    norm_num [monthIdx]
    have h := monthsBetween_2024_1_to_3
    norm_num [monthIdx] at h
    rw [h]
    norm_num
    simp

/-- C4: with both period bounds omitted, each subscription contributes over
its own interval: start through its own end, or through the first of the
current month when open-ended. -/
theorem calculateTotalCost_no_period_own_lifetime :
    (∀ (now : Int) (subs : List SubscriptionCost),
      calculateTotalCost now subs none none =
        (subs.map (fun sub =>
          sub.priceRub * (monthsBetween sub.startDate (sub.endDate.getD now) : Int))).sum) ∧
    (∀ now : Int, calculateTotalCost now
        [{ id := 1, userId := 0, serviceName := "Netflix", priceRub := 500, startDate := monthIdx 2024 1,
           endDate := some (monthIdx 2024 12) }] none none =
        500 * (monthsBetween (monthIdx 2024 1) (monthIdx 2024 12) : Int)) ∧
    (∀ now : Int, calculateTotalCost now
        [{ id := 1, userId := 0, serviceName := "Netflix", priceRub := 500, startDate := monthIdx 2024 1,
           endDate := some (monthIdx 2024 12) }] none none = 6000) := by
  have hgen : ∀ (now : Int) (subs : List SubscriptionCost),
      calculateTotalCost now subs none none =
        (subs.map (fun sub =>
          sub.priceRub * (monthsBetween sub.startDate (sub.endDate.getD now) : Int))).sum := by
    intro now subs
    unfold calculateTotalCost
    congr 1
    apply List.map_congr_left
    intro sub _
    rcases h : sub.endDate with _ | se <;>
      simp [calculateIntersectionMonths, h]
  refine ⟨hgen, ?_, ?_⟩
  · intro now
    rw [hgen]
    simp
  · intro now
    rw [hgen]
    simp [monthsBetween_2024_1_to_12]

theorem calculateIntersectionMonths_clock_independent (n1 n2 s : Int)
    (e pS pE : Option Int) (h : pE.isSome ∨ e.isSome) :
    calculateIntersectionMonths n1 s e pS pE = calculateIntersectionMonths n2 s e pS pE := by
  rcases pE with _ | pe
  · rcases e with _ | se
    · simp at h
    · rcases pS with _ | ps <;> rfl
  · rcases e with _ | se <;> rcases pS with _ | ps <;> rfl

/-- C10: the aggregated cost is independent of the wall clock whenever
`periodEnd` is supplied, and more generally whenever no candidate is
open-ended while `periodEnd` is absent. -/
theorem calculateTotalCost_clock_independent (n1 n2 : Int)
    (subs : List SubscriptionCost) (periodStart periodEnd : Option Int)
    (h : periodEnd.isSome ∨ ∀ sub ∈ subs, sub.endDate.isSome) :
    calculateTotalCost n1 subs periodStart periodEnd =
      calculateTotalCost n2 subs periodStart periodEnd := by
  unfold calculateTotalCost
  congr 1
  apply List.map_congr_left
  intro sub hmem
  rw [calculateIntersectionMonths_clock_independent]
  rcases h with h | h
  · exact Or.inl h
  · exact Or.inr (h sub hmem)

theorem calculateTotalCost_clock_independent_witness :
    calculateTotalCost 5
        [{ id := 1, userId := 0, serviceName := "Netflix", priceRub := 500, startDate := monthIdx 2024 1, endDate := none }]
        (some (monthIdx 2024 1)) (some (monthIdx 2024 3)) =
      calculateTotalCost 99999
        [{ id := 1, userId := 0, serviceName := "Netflix", priceRub := 500, startDate := monthIdx 2024 1, endDate := none }]
        (some (monthIdx 2024 1)) (some (monthIdx 2024 3)) :=
  calculateTotalCost_clock_independent 5 99999 _ _ _ (Or.inl rfl)

theorem statsCond_eq_specOverlapTest (p : GetTotalCostParams) (r : SubscriptionCost) :
    (statsUserServiceCond p r && statsPeriodCond p r) = specOverlapTest p r := by
  rcases p with ⟨u, s, ps, pe⟩
  rcases ps with _ | ps <;> rcases pe with _ | pe <;>
    simp [statsUserServiceCond, statsPeriodCond, specOverlapTest, Bool.and_assoc,
      Bool.and_comm, Bool.and_left_comm]

/-- C2: candidate selection for `GetTotalCost` is exactly the spec's overlap
test; excluded rows never reach the intersection step, and
`subscriptionsCount` is the number of candidate rows (not the number with
nonzero contribution). -/
theorem getTotalCost_candidate_selection (now : Int) (db : List SubscriptionCost)
    (p : GetTotalCostParams) :
    (∀ r : SubscriptionCost,
      r ∈ (statsServiceGetTotalCost now db p).subscriptions ↔
        r ∈ db ∧ specOverlapTest p r) ∧
    (statsServiceGetTotalCost now db p).subscriptionsCount =
      db.countP (fun r => specOverlapTest p r) ∧
    (statsServiceGetTotalCost now db p).totalCost =
      calculateTotalCost now (db.filter (fun r => specOverlapTest p r)) p.startDate p.endDate := by
  have hfilter : (db.filter (fun r => statsUserServiceCond p r && statsPeriodCond p r)) =
      db.filter (fun r => specOverlapTest p r) := by
    apply List.filter_congr
    intro r _
    exact statsCond_eq_specOverlapTest p r
  refine ⟨?_, ?_, ?_⟩
  · intro r
    simp only [statsServiceGetTotalCost, statsRepoGetTotalCost, hfilter]
    simp [List.mem_filter]
  · simp only [statsServiceGetTotalCost, statsRepoGetTotalCost, hfilter]
    simp [List.countP_eq_length_filter]
  · simp only [statsServiceGetTotalCost, statsRepoGetTotalCost, hfilter]

theorem toNat_ofNat_digit (n : Nat) (h1 : 48 ≤ n) (h2 : n ≤ 57) :
    (Char.ofNat n).toNat = n := by
  have hv : n.isValidChar := by
    unfold Nat.isValidChar
    left
    omega
  simp only [Char.ofNat, hv, dite_true, Char.ofNatAux, Char.toNat]
  show (UInt32.mk (BitVec.ofNatLt n _)).toNat = n
  simp [UInt32.toNat, BitVec.toNat_ofNatLt]

theorem ofNat_toNat_digit (c : Char) (h : c.isDigit) : Char.ofNat c.toNat = c := by
  simp [Char.isDigit] at h
  have hb : 48 ≤ c.toNat ∧ c.toNat ≤ 57 := ⟨h.1, h.2⟩
  apply Char.eq_of_val_eq
  have := toNat_ofNat_digit c.toNat hb.1 hb.2
  unfold Char.toNat at this
  exact UInt32.toNat.inj this

theorem digit_bounds (c : Char) (h : c.isDigit) : 48 ≤ c.toNat ∧ c.toNat ≤ 57 := by
  simp [Char.isDigit] at h
  exact ⟨h.1, h.2⟩

theorem string_mk_data (s : String) : String.mk s.data = s := by
  rcases s with ⟨d⟩
  rfl

theorem parseMonth_isSome_iff (s : String) : isMMYYYY s ↔ (parseMonth s).isSome := by
  constructor
  · rintro ⟨m1, m2, y1, y2, y3, y4, hdata, h1, h2, h3, h4, h5, h6, hlo, hhi⟩
    simp only [parseMonth, hdata, h1, h2, h3, h4, h5, h6, Bool.and_self, if_true]
    simp [hlo, hhi]
  · intro hsome
    unfold parseMonth at hsome
    match hd : s.data with
    | [m1, m2, dash, y1, y2, y3, y4] =>
      rw [hd] at hsome
      simp only at hsome
      by_cases hds : (m1.isDigit && m2.isDigit && dash = '-' &&
          y1.isDigit && y2.isDigit && y3.isDigit && y4.isDigit : Bool)
      · simp only [hds, if_true] at hsome
        simp only [Bool.and_eq_true, decide_eq_true_eq] at hds
        obtain ⟨⟨⟨⟨⟨⟨hm1, hm2⟩, hdash⟩, hy1⟩, hy2⟩, hy3⟩, hy4⟩ := hds
        by_cases hr : 1 ≤ 10 * digitVal m1 + digitVal m2 ∧
            10 * digitVal m1 + digitVal m2 ≤ 12
        · exact ⟨m1, m2, y1, y2, y3, y4, by rw [hd, hdash],
            hm1, hm2, hy1, hy2, hy3, hy4, hr.1, hr.2⟩
        · simp [hr] at hsome
      · simp [hds] at hsome
    | [] => rw [hd] at hsome; simp at hsome
    | [a] => rw [hd] at hsome; simp at hsome
    | [a, b] => rw [hd] at hsome; simp at hsome
    | [a, b, c] => rw [hd] at hsome; simp at hsome
    | [a, b, c, d] => rw [hd] at hsome; simp at hsome
    | [a, b, c, d, e] => rw [hd] at hsome; simp at hsome
    | [a, b, c, d, e, f] => rw [hd] at hsome; simp at hsome
    | a :: b :: c :: d :: e :: f :: g :: h :: rest => rw [hd] at hsome; simp at hsome

theorem formatDate_parseMonth (s : String) (m : Int) (hp : parseMonth s = some m) :
    formatDate (some m) = s := by
  obtain ⟨sdata⟩ := s
  rcases sdata with _ | ⟨m1, _ | ⟨m2, _ | ⟨dash, _ | ⟨y1, _ | ⟨y2, _ | ⟨y3, _ | ⟨y4, _ | ⟨x, rest⟩⟩⟩⟩⟩⟩⟩⟩ <;>
    simp only [parseMonth] at hp
  case cons.cons.cons.cons.cons.cons.cons.nil =>
    split at hp
    case isTrue hds =>
      split at hp
      case isTrue hr =>
        simp only [Bool.and_eq_true, decide_eq_true_eq] at hds
        obtain ⟨⟨⟨⟨⟨⟨hm1, hm2⟩, hdash⟩, hy1⟩, hy2⟩, hy3⟩, hy4⟩ := hds
        injection hp with hp
        subst hp
        subst hdash
        obtain ⟨hb1l, hb1h⟩ := digit_bounds m1 hm1
        obtain ⟨hb2l, hb2h⟩ := digit_bounds m2 hm2
        obtain ⟨hc1l, hc1h⟩ := digit_bounds y1 hy1
        obtain ⟨hc2l, hc2h⟩ := digit_bounds y2 hy2
        obtain ⟨hc3l, hc3h⟩ := digit_bounds y3 hy3
        obtain ⟨hc4l, hc4h⟩ := digit_bounds y4 hy4
        have hav : digitVal m1 = m1.toNat - 48 := rfl
        have hbv : digitVal m2 = m2.toNat - 48 := rfl
        have hpv : digitVal y1 = y1.toNat - 48 := rfl
        have hqv : digitVal y2 = y2.toNat - 48 := rfl
        have hrv : digitVal y3 = y3.toNat - 48 := rfl
        have htv : digitVal y4 = y4.toNat - 48 := rfl
        set a := digitVal m1
        set b := digitVal m2
        set p := digitVal y1
        set q := digitVal y2
        set r := digitVal y3
        set t := digitVal y4
        have hN : ((monthIdx (1000 * p + 100 * q + 10 * r + t : Nat) (10 * a + b : Nat)).toNat)
            = (1000 * p + 100 * q + 10 * r + t) * 12 + (10 * a + b) - 1 := by
          unfold monthIdx
          omega
        unfold formatDate
        simp only [hN]
        have hmm : ((1000 * p + 100 * q + 10 * r + t) * 12 + (10 * a + b) - 1) % 12 + 1
            = 10 * a + b := by omega
        have hyy : ((1000 * p + 100 * q + 10 * r + t) * 12 + (10 * a + b) - 1) / 12
            = 1000 * p + 100 * q + 10 * r + t := by omega
        rw [hmm, hyy]
        have hylt : 1000 * p + 100 * q + 10 * r + t < 10000 := by omega
        rw [if_pos hylt]
        have e1 : 48 + (10 * a + b) / 10 = m1.toNat := by omega
        have e2 : 48 + (10 * a + b) % 10 = m2.toNat := by omega
        have e3 : 48 + (1000 * p + 100 * q + 10 * r + t) / 1000 = y1.toNat := by omega
        have e4 : 48 + (1000 * p + 100 * q + 10 * r + t) / 100 % 10 = y2.toNat := by omega
        have e5 : 48 + (1000 * p + 100 * q + 10 * r + t) / 10 % 10 = y3.toNat := by omega
        have e6 : 48 + (1000 * p + 100 * q + 10 * r + t) % 10 = y4.toNat := by omega
        rw [e1, e2, e3, e4, e5, e6,
          ofNat_toNat_digit m1 hm1, ofNat_toNat_digit m2 hm2,
          ofNat_toNat_digit y1 hy1, ofNat_toNat_digit y2 hy2,
          ofNat_toNat_digit y3 hy3, ofNat_toNat_digit y4 hy4]
        rfl
      case isFalse => exact absurd hp (by simp)
    case isFalse => exact absurd hp (by simp)
  all_goals exact absurd hp (by simp)

/-- C9: `parseMonth` succeeds exactly on strings matching the `MM-YYYY`
pattern (month `01..12`, four-digit year) and `formatDate` inverts it there:
`formatDate (parseMonth s) = s` for every valid `s`. -/
theorem parseMonth_format_roundtrip :
    (∀ s : String, isMMYYYY s ↔ (parseMonth s).isSome) ∧
    (∀ (s : String) (m : Int), parseMonth s = some m → formatDate (some m) = s) :=
  ⟨parseMonth_isSome_iff, formatDate_parseMonth⟩

theorem parseMonth_format_roundtrip_witness :
    (parseMonth "01-2024").isSome ∧ formatDate (some (monthIdx 2024 1)) = "01-2024" :=
  ⟨(parseMonth_format_roundtrip.1 "01-2024").mp
      ⟨'0', '1', '2', '0', '2', '4', by rfl, by decide⟩,
   parseMonth_format_roundtrip.2 "01-2024" (monthIdx 2024 1) (by rfl)⟩

/-- C5: evaluates the update pipeline on a stored Jan-2024..Dec-2024
subscription.  The `""`/`"null"` sentinel makes the service store the
dereferenced zero `time.Time` (0001-01) in the params — not SQL NULL — and
the store's `end_date >= start_date` check rejects the write with a generic
storage error, so the end date is never cleared to open-ended; omitting
`endDate` leaves the stored end date unchanged. -/
theorem updateSubscription_clear_sentinel_writes_zero_date :
    serviceUpdateSubscription noResolve 1 none none none (some "") =
      Except.ok { id := 1, serviceID := none, priceRub := none,
                  startDate := none, endDate := some goZeroTimeMonth } ∧
    serviceUpdateSubscription noResolve 1 none none none (some "null") =
      Except.ok { id := 1, serviceID := none, priceRub := none,
                  startDate := none, endDate := some goZeroTimeMonth } ∧
    updateSubscription noResolve c5Store 1 none none none (some "") =
      Except.error RepoError.storage ∧
    updateSubscription noResolve c5Store 1 none (some 600) none none =
      Except.ok [{ id := 1, userId := 0, serviceId := 1, priceRub := 600,
                   startDate := monthIdx 2024 1, endDate := some (monthIdx 2024 12) }] := by
  refine ⟨rfl, rfl, rfl, rfl⟩

/-- C6 counterexample: `UpdateSubscription(id=1, endDate="06-2023")` on a
stored Jan-2024..Dec-2024 subscription violates `end ≥ start` against the
final (stored start, new end) values, yet the service performs no check —
the params reach the repository and the store's constraint rejects them with
a generic storage error, not `ValidationError`. -/
theorem updateSubscription_new_end_skips_validation :
    serviceUpdateSubscription noResolve 1 none none none (some "06-2023") =
      Except.ok { id := 1, serviceID := none, priceRub := none, startDate := none,
                  endDate := some (monthIdx 2023 6) } ∧
    updateSubscription noResolve c5Store 1 none none none (some "06-2023") =
      Except.error RepoError.storage ∧
    updateSubscription noResolve c5Store 1 none none none (some "06-2023") ≠
      Except.error RepoError.validation := by
  refine ⟨rfl, rfl, ?_⟩
  intro hbad
  have h2 : (Except.error RepoError.storage : Except RepoError (List SubRecord)) =
      Except.error RepoError.validation :=
    Eq.trans (rfl : updateSubscription noResolve c5Store 1 none none none (some "06-2023") =
      Except.error RepoError.storage).symm hbad
  exact RepoError.noConfusion (Except.error.inj h2)

/-- C6 amended: the `end ≥ start` invariant is checked at the service layer
only when the same call supplies both a new `startDate` and a new
non-sentinel `endDate`; then a violation between the two newly-parsed values
returns `ValidationError` before any repository call.  A new `endDate` alone
is never compared against the stored start (and a new `startDate` alone
never against the stored end): such violations surface from the store as a
generic storage error. -/
theorem updateSubscription_both_new_dates_validated
    (resolve : String → Except RepoError Int) (store : List SubRecord) (id : Int)
    (price : Option Int) (sd ed : String) (dsd ded : Int)
    (hsd : parseMonth sd = some dsd) (hed : parseMonth ed = some ded)
    (hne : ed ≠ "" ∧ ed ≠ "null") (hlt : ded < dsd) :
    serviceUpdateSubscription resolve id none price (some sd) (some ed) =
      Except.error RepoError.validation ∧
    updateSubscription resolve store id none price (some sd) (some ed) =
      Except.error RepoError.validation := by
  have hsvc : serviceUpdateSubscription resolve id none price (some sd) (some ed) =
      Except.error RepoError.validation := by
    unfold serviceUpdateSubscription
    simp [hsd, hed, hne.1, hne.2, hlt]
  refine ⟨hsvc, ?_⟩
  unfold updateSubscription
  rw [hsvc]
  rfl

theorem updateSubscription_both_new_dates_validated_witness :
    parseMonth "06-2024" = some (monthIdx 2024 6) ∧
    parseMonth "01-2024" = some (monthIdx 2024 1) ∧
    ("01-2024" ≠ "" ∧ "01-2024" ≠ "null") ∧
    monthIdx 2024 1 < monthIdx 2024 6 ∧
    updateSubscription noResolve [] 1 none none (some "06-2024") (some "01-2024") =
      Except.error RepoError.validation :=
  ⟨rfl, rfl, by decide, by decide,
   (updateSubscription_both_new_dates_validated noResolve [] 1 none
     "06-2024" "01-2024" (monthIdx 2024 6) (monthIdx 2024 1)
     rfl rfl (by decide) (by decide)).2⟩

theorem nextId_pos (store : List SubRecord) : 0 < nextId store := by
  unfold nextId
  have : 0 ≤ (store.map SubRecord.id).foldr max 0 := by
    induction store with
    | nil => simp
    | cons r rest ih =>
        simp only [List.map_cons, List.foldr_cons]
        exact le_trans ih (le_max_right _ _)
  omega

theorem rowChecks_rowOfCreate (id : Int) (p : CreateSubscriptionParams) :
    rowChecks (rowOfCreate id p) = createParamChecks p := rfl

/-- C7: inserting into a store with no row on the `(user_id, service_id,
start_date)` triple succeeds and returns the new row's id; a second insert
with the same triple — whatever its `end_date`, provided its own row passes
the table checks (as every request the service forwards does) — fails with
`AlreadyExists`, never a generic storage failure, the unique index being the
backstop that catches what the pre-check misses. -/
theorem createSubscription_unique_triple (store : List SubRecord)
    (p : CreateSubscriptionParams)
    (hfresh : ∀ r ∈ store, ¬(r.userId = p.userId ∧ r.serviceId = p.serviceId ∧
      r.startDate = p.startDate))
    (hchecks : createParamChecks p = true) :
    repoCreateSubscription store p =
      Except.ok (nextId store, store ++ [rowOfCreate (nextId store) p]) ∧
    (∀ q : CreateSubscriptionParams, createParamChecks q = true →
      q.userId = p.userId → q.serviceId = p.serviceId → q.startDate = p.startDate →
      repoCreateSubscription (store ++ [rowOfCreate (nextId store) p]) q =
        Except.error RepoError.subscriptionAlreadyExists) := by
  have hany3 : store.any (fun r => decide (r.userId = p.userId) &&
      decide (r.serviceId = p.serviceId) && decide (r.startDate = p.startDate)) = false := by
    rw [List.any_eq_false]
    intro r hr
    have := hfresh r hr
    simp only [Bool.and_eq_true, decide_eq_true_eq, not_and] at this ⊢
    tauto
  have hany4 : store.any (fun r => decide (r.userId = p.userId) &&
      decide (r.serviceId = p.serviceId) && decide (r.startDate = p.startDate) &&
      decide (r.endDate = p.endDate)) = false := by
    rw [List.any_eq_false]
    intro r hr
    have := hfresh r hr
    simp only [Bool.and_eq_true, decide_eq_true_eq, not_and] at this ⊢
    tauto
  constructor
  · unfold repoCreateSubscription
    rw [hany4]
    simp only [Bool.false_eq_true, if_false]
    rw [rowChecks_rowOfCreate, hchecks]
    simp only [Bool.not_true, Bool.false_eq_true, if_false]
    rw [hany3]
    have hid := nextId_pos store
    simp only [Bool.false_eq_true, if_false]
    rw [if_neg (by omega)]
  · intro q hqchecks hqu hqs hqd
    unfold repoCreateSubscription
    have hmem3 : ((store ++ [rowOfCreate (nextId store) p]).any
        (fun r => decide (r.userId = q.userId) && decide (r.serviceId = q.serviceId) &&
          decide (r.startDate = q.startDate))) = true := by
      rw [List.any_eq_true]
      refine ⟨rowOfCreate (nextId store) p, by simp, ?_⟩
      simp [rowOfCreate, hqu, hqs, hqd]
    by_cases h4 : ((store ++ [rowOfCreate (nextId store) p]).any
        (fun r => decide (r.userId = q.userId) && decide (r.serviceId = q.serviceId) &&
          decide (r.startDate = q.startDate) && decide (r.endDate = q.endDate))) = true
    · rw [h4]
      rfl
    · rw [Bool.not_eq_true] at h4
      rw [h4]
      simp only [Bool.false_eq_true, if_false]
      rw [rowChecks_rowOfCreate, hqchecks]
      simp only [Bool.not_true, Bool.false_eq_true, if_false]
      rw [hmem3]
      rfl

theorem createSubscription_unique_triple_witness :
    (∀ r ∈ ([] : List SubRecord), ¬(r.userId = 7 ∧ r.serviceId = 3 ∧
      r.startDate = monthIdx 2024 1)) ∧
    createParamChecks { userId := 7, serviceId := 3, priceRub := 500,
                        startDate := monthIdx 2024 1, endDate := none } = true ∧
    createParamChecks { userId := 7, serviceId := 3, priceRub := 900,
                        startDate := monthIdx 2024 1,
                        endDate := some (monthIdx 2024 5) } = true ∧
    repoCreateSubscription []
        { userId := 7, serviceId := 3, priceRub := 500,
          startDate := monthIdx 2024 1, endDate := none } =
      Except.ok (1, [{ id := 1, userId := 7, serviceId := 3, priceRub := 500,
                       startDate := monthIdx 2024 1, endDate := none }]) ∧
    repoCreateSubscription
        [{ id := 1, userId := 7, serviceId := 3, priceRub := 500,
           startDate := monthIdx 2024 1, endDate := none }]
        { userId := 7, serviceId := 3, priceRub := 900,
          startDate := monthIdx 2024 1, endDate := some (monthIdx 2024 5) } =
      Except.error RepoError.subscriptionAlreadyExists := by
  have h := createSubscription_unique_triple []
    { userId := 7, serviceId := 3, priceRub := 500,
      startDate := monthIdx 2024 1, endDate := none }
    (by simp) (by decide)
  refine ⟨by simp, by decide, by decide, h.1, ?_⟩
  exact h.2 { userId := 7, serviceId := 3, priceRub := 900,
              startDate := monthIdx 2024 1, endDate := some (monthIdx 2024 5) }
    (by decide) rfl rfl rfl

/-- C8: when the lookup misses and a concurrent caller has inserted
"Netflix" (id 1) before our insert runs, `GetOrCreateServiceID` returns the
`ErrServiceNameExists` failure from the unique-conflicting insert instead of
re-reading and returning the existing id 1. -/
theorem getOrCreateServiceID_conflict_is_error :
    getOrCreateServiceID [] [(1, "Netflix")] "Netflix" =
      Except.error RepoError.serviceNameExists ∧
    getOrCreateServiceID [] [(1, "Netflix")] "Netflix" ≠ Except.ok 1 := by
  constructor
  · rfl
  · intro hbad
    have h2 : (Except.error RepoError.serviceNameExists : Except RepoError Int) =
        Except.ok 1 :=
      Eq.trans (rfl : getOrCreateServiceID [] [(1, "Netflix")] "Netflix" =
        Except.error RepoError.serviceNameExists).symm hbad
    exact Except.noConfusion h2
